import Mathlib

/-!
Verification of the workflow-orchestration engine of the datarush-hackathon
repository: a shallow embedding of
`datarush_hackathon/agents/master_agent/enhanced_workflows.py` and
`datarush_hackathon/agents/master_agent/agent.py`, together with theorems about
the classifier, the workflow selector, the executor and the result synthesizer.

Python dictionaries are embedded as Lean structures (one field per dict key
read by the orchestration code) or as insertion-ordered association lists where
a dict is built incrementally; Python strings are Lean `String`; a Python
function that may raise is an `Except String`-valued Lean function whose
`Except.error` carries `str(e)`.
-/

/-- `startsWithChars needle hay` models Python list/str prefix matching on
character lists: `needle` is a prefix of `hay`. -/
def startsWithChars : List Char → List Char → Bool
  | [], _ => true
  | _ :: _, [] => false
  | a :: as, b :: bs => a == b && startsWithChars as bs

/-- `containsChars needle hay` is true iff `needle` occurs contiguously in
`hay`; together with `containsStr` it embeds the Python substring test
`needle in hay` used throughout the keyword matching. -/
def containsChars (needle : List Char) : List Char → Bool
  | [] => startsWithChars needle []
  | b :: bs => startsWithChars needle (b :: bs) || containsChars needle bs

/-- Python `needle in hay` on strings. -/
def containsStr (needle hay : String) : Bool :=
  containsChars needle.toList hay.toList

/-- Models Python `str.lower()`. The orchestration code only lowercases query
text before ASCII-alphabet keyword matching, and `Char.toLower` agrees with
Python on the ASCII range used by every concrete input in this development. -/
def pyLower (s : String) : String :=
  String.mk (s.toList.map Char.toLower)

/-- Character-level worker for `pyTitle`: the flag records whether the previous
character was alphabetic (Python's notion of being inside a word). -/
def pyTitleGo : Bool → List Char → List Char
  | _, [] => []
  | prev, c :: cs =>
      if c.isAlpha then
        (if prev then c.toLower else c.toUpper) :: pyTitleGo true cs
      else
        c :: pyTitleGo false cs

/-- Models Python `s.replace('_', ' ').title()` as applied to stage names in
`_generate_final_synthesis` (enhanced_workflows.py line 401). -/
def pyTitle (s : String) : String :=
  String.mk (pyTitleGo false (s.toList.map (fun c => if c = '_' then ' ' else c)))

/-- A provider recommendation dict as read by
`_generate_prioritized_recommendations` (lines 418-423): both fields are
accessed with `.get` and a default, so each is optional. -/
structure Rec where
  priority : Option String
  description : Option String
deriving DecidableEq

/-- The opaque `raw_result` payload attached by a provider.  The orchestration
code reads only the optional `recommendations` and `insights` keys
(enhanced_workflows.py lines 329-333 and 417). -/
structure Raw where
  recommendations : Option (List Rec)
  insights : Option (List Rec)
deriving DecidableEq

/-- A per-stage result dict.  Downstream consumers read exactly the four keys
`success` (always via `.get('success', False)`), `summary`, `raw_result` and
`error`, each of which may be absent, hence four `Option` fields.  Keys of
derived-stage dicts that no consumer reads (`consistency_score`, `conflicts`,
`agreements`, placeholder payloads such as `analysis` or `plan`) are not
modelled. -/
structure StageResult where
  success : Option Bool
  summary : Option String
  raw_result : Option Raw
  error : Option String
deriving DecidableEq

/-- The request context dict built by the surrounding application.  The
orchestrator reads only `context.get('data_loaded', False)`; every other entry
is carried opaquely in `extra`. -/
structure Ctx where
  data_loaded : Bool
  extra : List (String × String)
deriving DecidableEq

/-- A capability provider (data-analysis, research or business-advisory
agent): `run` is the analysis entry point (`analyze_user_query`,
`research_topic` or `analyze_business_query`) and `getSummary` the matching
summary call; either may raise, modelled by `Except.error` carrying the
exception message. -/
structure Agent where
  run : String → Option Ctx → Except String Raw
  getSummary : Raw → Except String String

/-- The `agents` dict passed to `execute_enhanced_workflow` (agent.py lines
36-41), restricted to the three providers the enhanced executor dispatches
to.  The `chat` agent is never invoked by any enhanced workflow stage. -/
structure Agents where
  data_analysis : Agent
  research : Agent
  business_advisor : Agent

/-- One entry of `EnhancedWorkflows.workflow_templates`
(enhanced_workflows.py lines 21-87). -/
structure Workflow where
  name : String
  description : String
  agents : List String
  workflow : List String
  output_format : String
deriving DecidableEq

/-- The `strategic_analysis` template (lines 22-34). -/
def strategic_analysis_wf : Workflow :=
  { name := "Análisis Estratégico Completo"
  , description := "Análisis integral que combina datos, investigación y recomendaciones estratégicas"
  , agents := ["data_analysis", "research", "business_advisor"]
  , workflow := ["data_analysis", "research", "business_advisor", "cross_validation", "strategic_synthesis"]
  , output_format := "strategic_report" }

/-- The `market_analysis` template (lines 35-47). -/
def market_analysis_wf : Workflow :=
  { name := "Análisis de Mercado Integrado"
  , description := "Análisis de mercado que combina datos internos con investigación externa"
  , agents := ["data_analysis", "research", "business_advisor"]
  , workflow := ["data_analysis", "research", "business_advisor", "competitive_analysis", "implementation_plan"]
  , output_format := "market_report" }

/-- The `predictive_analysis` template (lines 48-60). -/
def predictive_analysis_wf : Workflow :=
  { name := "Análisis Predictivo Avanzado"
  , description := "Análisis predictivo que combina datos históricos con factores externos"
  , agents := ["data_analysis", "research", "business_advisor"]
  , workflow := ["data_analysis", "research", "business_advisor", "predictive_modeling", "scenario_planning"]
  , output_format := "predictive_report" }

/-- The `holiday_impact_analysis` template (lines 61-73). -/
def holiday_impact_analysis_wf : Workflow :=
  { name := "Análisis de Impacto de Feriados"
  , description := "Análisis específico del impacto de feriados en el negocio"
  , agents := ["data_analysis", "research", "business_advisor"]
  , workflow := ["data_analysis", "research", "business_advisor", "impact_assessment", "holiday_strategy"]
  , output_format := "holiday_report" }

/-- The `seasonal_analysis` template (lines 74-86). -/
def seasonal_analysis_wf : Workflow :=
  { name := "Análisis Estacional Integral"
  , description := "Análisis completo de patrones estacionales y su impacto"
  , agents := ["data_analysis", "research", "business_advisor"]
  , workflow := ["data_analysis", "research", "business_advisor", "seasonal_optimization", "year_round_strategy"]
  , output_format := "seasonal_report" }

/-- `EnhancedWorkflows.workflow_templates` as an insertion-ordered association
list (Python dicts preserve insertion order). -/
def workflow_templates : List (String × Workflow) :=
  [ ("strategic_analysis", strategic_analysis_wf)
  , ("market_analysis", market_analysis_wf)
  , ("predictive_analysis", predictive_analysis_wf)
  , ("holiday_impact_analysis", holiday_impact_analysis_wf)
  , ("seasonal_analysis", seasonal_analysis_wf) ]

/-- `EnhancedWorkflows.get_workflow_for_query` (lines 89-124): lowercase the
query, then run the fixed if/elif keyword cascade, defaulting to the
strategic template.  The `context` argument is accepted and ignored, as in
the source. -/
def get_workflow_for_query (query : String) (_context : Option Ctx) : Workflow :=
  let ql := pyLower query
  if ["estratégico", "estrategia", "plan", "completo", "integral"].any (fun k => containsStr k ql) then
    strategic_analysis_wf
  else if ["mercado", "competencia", "competitivo", "benchmark"].any (fun k => containsStr k ql) then
    market_analysis_wf
  else if ["predicción", "pronóstico", "futuro", "proyección"].any (fun k => containsStr k ql) then
    predictive_analysis_wf
  else if ["feriado", "vacaciones", "navidad", "año nuevo"].any (fun k => containsStr k ql) then
    holiday_impact_analysis_wf
  else if ["estacional", "temporada", "verano", "invierno"].any (fun k => containsStr k ql) then
    seasonal_analysis_wf
  else
    strategic_analysis_wf

/-- Python-dict insertion into an insertion-ordered association list:
assignment `d[k] = v` updates an existing key in place and otherwise appends
at the end, exactly the CPython dict semantics used for `results['stages']`. -/
def dictInsert : List (String × StageResult) → String → StageResult → List (String × StageResult)
  | [], k, v => [(k, v)]
  | p :: rest, k, v => if p.1 = k then (k, v) :: rest else p :: dictInsert rest k v

/-- Python-dict lookup `d.get(k)` on the same representation. -/
def dictGet : List (String × StageResult) → String → Option StageResult
  | [], _ => none
  | p :: rest, k => if p.1 = k then some p.2 else dictGet rest k

/-- The body of the `try` block of `_execute_agent_stage` for one provider:
call the provider's analysis entry point, then its summary function; success
yields the `{'success': True, 'summary': ..., 'raw_result': ...}` dict, and
an exception anywhere in the block is caught into
`{'success': False, 'error': str(e)}` (lines 212-270). -/
def runAgentCall (a : Agent) (query : String) (ctx : Option Ctx) : StageResult :=
  match (do
      let r ← a.run query ctx
      let s ← a.getSummary r
      Except.ok (r, s) : Except String (Raw × String)) with
  | Except.ok rs =>
      { success := some true, summary := some rs.2, raw_result := some rs.1, error := none }
  | Except.error e =>
      { success := some false, summary := none, raw_result := none, error := some e }

/-- The provider `_execute_agent_stage` dispatches to for a given stage name
(lines 220-261). -/
def agentFor (agents : Agents) : String → Agent
  | "data_analysis" => agents.data_analysis
  | "research" => agents.research
  | _ => agents.business_advisor

/-- `EnhancedWorkflows._execute_agent_stage` (lines 210-270).  The final
branch is unreachable: the caller only invokes this function for the three
provider stage names (Python would fall off the `try` block and return
`None` there). -/
def execute_agent_stage (stage query : String) (ctx : Option Ctx) (agents : Agents) : StageResult :=
  if stage = "data_analysis" then runAgentCall agents.data_analysis query ctx
  else if stage = "research" then runAgentCall agents.research query ctx
  else if stage = "business_advisor" then runAgentCall agents.business_advisor query ctx
  else { success := none, summary := none, raw_result := none, error := none }

/-- `EnhancedWorkflows._cross_validate_results` (lines 272-293): returns the
dict `{'consistency_score': ..., 'conflicts': [], 'agreements': [],
'recommendations': []}`.  None of the four keys read downstream (`success`,
`summary`, `raw_result`, `error`) is present, so in this embedding the result
is the all-absent record; in particular `stage_result.get('success', False)`
on it yields `False`. -/
def cross_validate_results (_stages : List (String × StageResult)) : StageResult :=
  { success := none, summary := none, raw_result := none, error := none }

/-- `EnhancedWorkflows._create_strategic_synthesis` (lines 295-319): returns
`{'executive_summary': ..., 'key_findings': ..., ...}` — again none of the
downstream-read keys, so the all-absent record. -/
def create_strategic_synthesis (_stages : List (String × StageResult)) (_query : String) : StageResult :=
  { success := none, summary := none, raw_result := none, error := none }

/-- Each placeholder derived stage (lines 443-473) returns
`{'success': True, <payload key>: <placeholder string>}`: the `success` key is
`True` and the payload key is read by no consumer. -/
def placeholder_stage_result : StageResult :=
  { success := some true, summary := none, raw_result := none, error := none }

/-- One iteration of the stage loop of `execute_enhanced_workflow`
(lines 158-201): dispatch on the stage name in the source's if/elif order and
produce the stage's result dict, or `none` when the name matches no branch
(in which case the loop stores nothing for it). -/
def runStage (agents : Agents) (stagesSoFar : List (String × StageResult))
    (stage query : String) (ctx : Option Ctx) : Option StageResult :=
  if stage = "data_analysis" ∨ stage = "research" ∨ stage = "business_advisor" then
    some (execute_agent_stage stage query ctx agents)
  else if stage = "cross_validation" then
    some (cross_validate_results stagesSoFar)
  else if stage = "strategic_synthesis" then
    some (create_strategic_synthesis stagesSoFar query)
  else if stage = "competitive_analysis" then some placeholder_stage_result
  else if stage = "implementation_plan" then some placeholder_stage_result
  else if stage = "predictive_modeling" then some placeholder_stage_result
  else if stage = "scenario_planning" then some placeholder_stage_result
  else if stage = "impact_assessment" then some placeholder_stage_result
  else if stage = "holiday_strategy" then some placeholder_stage_result
  else if stage = "seasonal_optimization" then some placeholder_stage_result
  else if stage = "year_round_strategy" then some placeholder_stage_result
  else none

/-- The loop body of `_generate_final_synthesis` (lines 399-405): a stage
whose `success` flag is truthy appends a titled section header, its summary
when present, and spacer lines; any other stage appends nothing. -/
def synthSection (ps : List String) (p : String × StageResult) : List String :=
  if p.2.success.getD false then
    ps ++ ["### 🔍 " ++ pyTitle p.1, ""]
       ++ (match p.2.summary with | some s => [s] | none => []) ++ [""]
  else ps

/-- `EnhancedWorkflows._generate_final_synthesis` (lines 389-407): header
lines naming the template, then one titled section (with its summary, when
present) per stage whose `success` flag is truthy, joined with newlines.
Stages whose `success` is absent or `False` contribute nothing. -/
def generate_final_synthesis (stages : List (String × StageResult)) (wf : Workflow) : String :=
  let parts := ["## 🎯 " ++ wf.name, "", "### 📊 Resumen Ejecutivo", ""]
  let parts := stages.foldl synthSection parts
  String.intercalate "\n" parts

/-- A recommendation entry of the prioritized list built by
`_generate_prioritized_recommendations` (lines 419-423). -/
structure OutRec where
  priority : String
  description : String
  source : String
deriving DecidableEq

/-- `priority_order.get(x['priority'], 2)` with
`priority_order = {'high': 3, 'medium': 2, 'low': 1}` (lines 426-427). -/
def priority_order_get (p : String) : Nat :=
  if p = "high" then 3 else if p = "medium" then 2 else if p = "low" then 1 else 2

/-- The extraction loop of `_generate_prioritized_recommendations`
(lines 411-423): from every stage whose `success` flag is truthy and which has
a `raw_result` with a `recommendations` key, collect each recommendation with
its `.get` defaults and the originating stage name. -/
def extract_stage_recommendations (stages : List (String × StageResult)) : List OutRec :=
  stages.foldl (fun acc p =>
    if p.2.success.getD false then
      match p.2.raw_result with
      | some raw =>
          match raw.recommendations with
          | some recs =>
              acc ++ recs.map (fun r =>
                { priority := r.priority.getD "medium"
                , description := r.description.getD ""
                , source := p.1 })
          | none => acc
      | none => acc
    else acc) []

/-- `recommendations.sort(key=lambda x: priority_order.get(x['priority'], 2),
reverse=True)` (line 427).  CPython's sort is stable, and with `reverse=True`
elements with equal keys still keep their original relative order; since the
key only takes the values 3, 2 and 1, the stable descending sort is exactly
the concatenation of the three key buckets in original order. -/
def pySortByPriorityDesc (l : List OutRec) : List OutRec :=
  l.filter (fun r => priority_order_get r.priority == 3)
    ++ l.filter (fun r => priority_order_get r.priority == 2)
    ++ l.filter (fun r => priority_order_get r.priority == 1)

/-- `EnhancedWorkflows._generate_prioritized_recommendations` (lines
409-429). -/
def generate_prioritized_recommendations (stages : List (String × StageResult)) : List OutRec :=
  pySortByPriorityDesc (extract_stage_recommendations stages)

/-- `EnhancedWorkflows._generate_next_steps` (lines 431-440): a fixed list,
independent of the stages and the query. -/
def generate_next_steps (_stages : List (String × StageResult)) (_query : String) : List String :=
  [ "Revisar y validar los hallazgos con datos adicionales"
  , "Implementar las recomendaciones de alta prioridad"
  , "Monitorear los indicadores de éxito definidos"
  , "Programar seguimiento en 30 días" ]

/-- The run-result dict built by `execute_enhanced_workflow` (lines 147-155
and 203-206).  The `timestamp` key holds `datetime.now().isoformat()`, an
I/O-dependent wall-clock string read by no claim, and is not modelled as a
field; `resultFields` below records the full key set. -/
structure Results where
  workflow_name : String
  query : String
  stages : List (String × StageResult)
  synthesis : String
  recommendations : List OutRec
  next_steps : List String

/-- The exact key set of the results dict assembled by
`execute_enhanced_workflow`: the dict literal of lines 147-155 (whose
`stages`, `synthesis`, `recommendations` and `next_steps` entries are then
overwritten in place by lines 158-206).  No other key is ever assigned. -/
def resultFields : List String :=
  ["workflow_name", "query", "timestamp", "stages", "synthesis", "recommendations", "next_steps"]

/-- `EnhancedWorkflows.execute_enhanced_workflow` (lines 126-208): iterate the
template's `workflow` list in order, storing each produced stage result under
its stage name, then attach the final synthesis, the prioritized
recommendations and the next steps. -/
def execute_enhanced_workflow (wf : Workflow) (query : String) (ctx : Option Ctx)
    (agents : Agents) : Results :=
  let stages := wf.workflow.foldl (fun acc stage =>
    match runStage agents acc stage query ctx with
    | some r => dictInsert acc stage r
    | none => acc) []
  { workflow_name := wf.name
  , query := query
  , stages := stages
  , synthesis := generate_final_synthesis stages wf
  , recommendations := generate_prioritized_recommendations stages
  , next_steps := generate_next_steps stages query }

/-- The keyword tables of `MasterAgent.agent_capabilities` (agent.py lines
43-68), in dict insertion order.  The `name`, `description` and `strengths`
entries of each capability are not read by `_analyze_query` and are omitted
here. -/
def agent_capability_keywords : List (String × List String) :=
  [ ("data_analysis",
      ["análisis", "datos", "tendencia", "patrón", "estadística", "métrica", "gráfico", "visualización"])
  , ("business_advisor",
      ["negocio", "recomendación", "estrategia", "turismo", "retail", "restaurante", "transporte", "servicio"])
  , ("research",
      ["investigar", "buscar", "información", "contexto", "fuente", "estudio", "investigación"])
  , ("chat",
      ["pregunta", "ayuda", "información", "general", "básico"]) ]

/-- The `complexity_indicators` table of `_analyze_query` (lines 186-190), in
dict insertion order. -/
def complexity_indicators : List (String × List String) :=
  [ ("high", ["completo", "integral", "estratégico", "análisis profundo", "investigación", "recomendación"])
  , ("medium", ["análisis", "comparar", "evaluar", "estudiar", "examinar"])
  , ("low", ["pregunta", "información", "ayuda", "básico"]) ]

/-- The complexity loop of `_analyze_query` (lines 192-196): starting from
`'low'`, take the first level whose indicator list has a member occurring in
the lowercased query and break; no match leaves `'low'`. -/
def complexityOf (ql : String) : String :=
  match complexity_indicators.find? (fun p => p.2.any (fun k => containsStr k ql)) with
  | some p => p.1
  | none => "low"

/-- The capability loop of `_analyze_query` (lines 198-206): collect, in table
order, every capability one of whose keywords occurs in the lowercased query;
an empty collection defaults to `['chat']`. -/
def requiredCapabilitiesOf (ql : String) : List String :=
  let caps := agent_capability_keywords.foldl (fun acc p =>
    if p.2.any (fun k => containsStr k ql) then acc ++ [p.1] else acc) []
  if caps = [] then ["chat"] else caps

/-- `context and context.get('data_loaded', False)` (line 209).  A missing
context (Python `None`) and a `False` flag are both falsy; the flag is
modelled as the resulting `Bool`. -/
def hasDataContext : Option Ctx → Bool
  | none => false
  | some c => c.data_loaded

/-- `MasterAgent._classify_query_type` (agent.py lines 218-229), applied to
the already-lowercased query. -/
def classify_query_type (ql : String) : String :=
  if ["negocio", "recomendación", "estrategia", "turismo", "retail"].any (fun k => containsStr k ql) then
    "business"
  else if ["análisis", "datos", "tendencia", "patrón", "métrica"].any (fun k => containsStr k ql) then
    "analysis"
  else if ["investigar", "buscar", "información", "contexto"].any (fun k => containsStr k ql) then
    "research"
  else if ["completo", "integral", "todo", "todos"].any (fun k => containsStr k ql) then
    "comprehensive"
  else
    "general"

/-- The classification dict returned by `MasterAgent._analyze_query`
(lines 211-216).  Note that the dict has exactly these four keys — in
particular no `query` key. -/
structure Analysis where
  complexity : String
  required_capabilities : List String
  has_data_context : Bool
  query_type : String
deriving DecidableEq

/-- `MasterAgent._analyze_query` (agent.py lines 172-216). -/
def analyze_query (query : String) (context : Option Ctx) : Analysis :=
  let ql := pyLower query
  { complexity := complexityOf ql
  , required_capabilities := requiredCapabilitiesOf ql
  , has_data_context := hasDataContext context
  , query_type := classify_query_type ql }

/-- `MasterAgent._select_workflow` (agent.py lines 231-243): it calls
`enhanced_workflows.get_workflow_for_query(analysis_result.get('query', ''),
analysis_result)`.  The dict produced by `_analyze_query` has only the keys
`complexity`, `required_capabilities`, `has_data_context` and `query_type`,
so the `.get('query', '')` lookup always yields the default `''`, and the
keyword cascade runs on the empty string. -/
def select_workflow (_analysis : Analysis) : Workflow :=
  get_workflow_for_query "" none

/-- The enhanced-result branch of `MasterAgent._synthesize_results` (agent.py
lines 291-294): a result dict produced by `execute_enhanced_workflow` always
has the `synthesis` and `stages` keys, so the method returns its `synthesis`
string; the basic fallback of lines 296-354 is unreachable on such results. -/
def synthesize_results (results : Results) (_query : String) (_context : Option Ctx) : String :=
  results.synthesis

/-- If the provider call of a stage raises, the `try`/`except` of
`_execute_agent_stage` turns it into the `{'success': False, 'error': str(e)}`
dict. -/
theorem runAgentCall_fail (a : Agent) (q : String) (ctx : Option Ctx) (e : String)
    (h : a.run q ctx = Except.error e) :
    runAgentCall a q ctx = ⟨some false, none, none, some e⟩ := by
  unfold runAgentCall
  rw [h]
  rfl

/-- C1: if an agent stage's provider call raises, the executor records a
`success = False` stage result carrying the error message for that stage,
still produces a stage result for every stage of the template, and leaves
every other agent stage's result exactly what its own call produces — the
exception never aborts the run. -/
theorem stage_failure_contained (wfid : String) (wf : Workflow)
    (hwf : (wfid, wf) ∈ workflow_templates)
    (s : String) (hs : s ∈ ["data_analysis", "research", "business_advisor"])
    (q : String) (ctx : Option Ctx) (agents : Agents) (e : String)
    (hfail : (agentFor agents s).run q ctx = Except.error e) :
    dictGet (execute_enhanced_workflow wf q ctx agents).stages s
        = some ⟨some false, none, none, some e⟩
    ∧ (∀ t ∈ wf.workflow, ∃ r, dictGet (execute_enhanced_workflow wf q ctx agents).stages t = some r)
    ∧ (∀ t ∈ ["data_analysis", "research", "business_advisor"], t ≠ s →
        dictGet (execute_enhanced_workflow wf q ctx agents).stages t
          = some (execute_agent_stage t q ctx agents)) := by
  simp only [workflow_templates, List.mem_cons, List.not_mem_nil, or_false, Prod.mk.injEq] at hwf
  simp only [List.mem_cons, List.not_mem_nil, or_false] at hs
  obtain ⟨-, rfl⟩ | ⟨-, rfl⟩ | ⟨-, rfl⟩ | ⟨-, rfl⟩ | ⟨-, rfl⟩ := hwf <;>
    obtain rfl | rfl | rfl := hs <;>
    exact ⟨congrArg some (runAgentCall_fail _ _ _ _ hfail),
      by intro t ht; fin_cases ht <;> exact ⟨_, rfl⟩,
      by intro t ht hne; fin_cases ht <;> first | exact absurd rfl hne | rfl⟩

/-- An agent that always succeeds, used to instantiate theorems at concrete
runs. -/
def witOkAgent : Agent :=
  { run := fun _ _ => Except.ok ⟨none, none⟩, getSummary := fun _ => Except.ok "OK" }

/-- An agent whose provider call always raises `boom`. -/
def witFailAgent : Agent :=
  { run := fun _ _ => Except.error "boom", getSummary := fun _ => Except.ok "" }

/-- A concrete agents dict whose data-analysis provider raises. -/
def witAgents : Agents :=
  { data_analysis := witFailAgent, research := witOkAgent, business_advisor := witOkAgent }

/-- Witness for C1 at a concrete run: the strategic template, a failing
data-analysis provider. -/
theorem stage_failure_contained_instance :
    ("strategic_analysis", strategic_analysis_wf) ∈ workflow_templates
    ∧ "data_analysis" ∈ ["data_analysis", "research", "business_advisor"]
    ∧ (agentFor witAgents "data_analysis").run "q" none = Except.error "boom"
    ∧ dictGet (execute_enhanced_workflow strategic_analysis_wf "q" none witAgents).stages "data_analysis"
        = some ⟨some false, none, none, some "boom"⟩ :=
  ⟨by simp [workflow_templates], by simp, rfl,
    (stage_failure_contained "strategic_analysis" strategic_analysis_wf
      (by simp [workflow_templates]) "data_analysis" (by simp) "q" none witAgents "boom" rfl).1⟩

/-- C9: for every registry template, the stage-results dict assembled by
`execute_enhanced_workflow` is keyed in exactly the template's `workflow`
order, whatever the providers do. -/
theorem stages_in_template_order (wfid : String) (wf : Workflow)
    (hwf : (wfid, wf) ∈ workflow_templates)
    (q : String) (ctx : Option Ctx) (agents : Agents) :
    (execute_enhanced_workflow wf q ctx agents).stages.map Prod.fst = wf.workflow := by
  simp only [workflow_templates, List.mem_cons, List.not_mem_nil, or_false, Prod.mk.injEq] at hwf
  obtain ⟨-, rfl⟩ | ⟨-, rfl⟩ | ⟨-, rfl⟩ | ⟨-, rfl⟩ | ⟨-, rfl⟩ := hwf <;> rfl

/-- Witness for C9 at a concrete run of the strategic template. -/
theorem stages_in_template_order_instance :
    (execute_enhanced_workflow strategic_analysis_wf "q" none witAgents).stages.map Prod.fst
      = strategic_analysis_wf.workflow :=
  stages_in_template_order "strategic_analysis" strategic_analysis_wf
    (by simp [workflow_templates]) "q" none witAgents

/-- The section-building fold of `_generate_final_synthesis` is unchanged by
removing the stages whose `success` flag is not truthy: those stages append
nothing. -/
theorem foldl_synthSection_filter (l : List (String × StageResult)) (init : List String) :
    l.foldl synthSection init
      = (l.filter fun p => p.2.success.getD false).foldl synthSection init := by
  induction l generalizing init with
  | nil => rfl
  | cons p rest ih =>
      by_cases h : p.2.success.getD false = true
      · simp only [List.foldl_cons, List.filter_cons, h, if_true, ih]
      · simp only [List.foldl_cons, List.filter_cons, h, if_false, Bool.false_eq_true, ih]
        have hstep : synthSection init p = init := by
          unfold synthSection
          simp [h]
        rw [hstep]

/-- C2 (amended): the synthesized narrative is built from the succeeded
stages alone — it equals the narrative of the run restricted to its succeeded
stages, so failed stages and their error messages are omitted entirely rather
than enumerated. -/
theorem narrative_ignores_failed_stages :
    ∀ stages wf, generate_final_synthesis stages wf
      = generate_final_synthesis (stages.filter fun p => p.2.success.getD false) wf := by
  intro stages wf
  show String.intercalate "\n"
      (stages.foldl synthSection ["## 🎯 " ++ wf.name, "", "### 📊 Resumen Ejecutivo", ""])
    = String.intercalate "\n"
      ((stages.filter fun p => p.2.success.getD false).foldl synthSection
        ["## 🎯 " ++ wf.name, "", "### 📊 Resumen Ejecutivo", ""])
  exact congrArg _ (foldl_synthSection_filter stages _)

/-- A data-analysis agent that succeeds with summary `RESUMEN_A`. -/
def c2OkA : Agent :=
  { run := fun _ _ => Except.ok ⟨none, none⟩, getSummary := fun _ => Except.ok "RESUMEN_A" }

/-- A research agent whose provider call raises `boom`. -/
def c2Fail : Agent :=
  { run := fun _ _ => Except.error "boom", getSummary := fun _ => Except.ok "" }

/-- A business-advisor agent that succeeds with summary `RESUMEN_B`. -/
def c2OkB : Agent :=
  { run := fun _ _ => Except.ok ⟨none, none⟩, getSummary := fun _ => Except.ok "RESUMEN_B" }

/-- Agents for a strategic run with two succeeded and one failed agent
stage. -/
def c2Agents : Agents :=
  { data_analysis := c2OkA, research := c2Fail, business_advisor := c2OkB }

/-- C2 (counterexample): in a concrete strategic run with two succeeded agent
stages and one failed one, the failed `research` stage is recorded with its
error `boom`, yet the synthesized narrative contains no failure entry: neither
the error message `boom` nor the stage name (`research`, titled `Research`)
occurs anywhere in the narrative, while the succeeded stages' summaries do. -/
theorem failed_stage_omitted_from_narrative :
    dictGet (execute_enhanced_workflow strategic_analysis_wf "q" none c2Agents).stages "research"
        = some ⟨some false, none, none, some "boom"⟩
    ∧ containsStr "boom" (execute_enhanced_workflow strategic_analysis_wf "q" none c2Agents).synthesis = false
    ∧ containsStr "research" (execute_enhanced_workflow strategic_analysis_wf "q" none c2Agents).synthesis = false
    ∧ containsStr "Research" (execute_enhanced_workflow strategic_analysis_wf "q" none c2Agents).synthesis = false
    ∧ containsStr "RESUMEN_A" (execute_enhanced_workflow strategic_analysis_wf "q" none c2Agents).synthesis = true := by
  exact ⟨rfl, by decide, by decide, by decide, by decide⟩

/-- C3 (code bug evaluated on the code): `MasterAgent._select_workflow` looks
up `analysis_result.get('query', '')`, but `_analyze_query` never stores a
`query` key, so the keyword cascade always runs on the empty string and the
selector returns the default strategic template for every analysis — even for
a `mercado` query, although `get_workflow_for_query` itself, given the actual
query text as its own unit tests do, selects the Market template. -/
theorem selector_never_sees_query :
    (∀ a : Analysis, select_workflow a = strategic_analysis_wf)
    ∧ select_workflow (analyze_query "necesito un análisis de mercado" none) = strategic_analysis_wf
    ∧ get_workflow_for_query "necesito un análisis de mercado" none = market_analysis_wf :=
  ⟨fun _ => rfl, rfl, rfl⟩

/-- Modelled from the spec: the confidence formula
`0.6 * (succeededStages / totalStages) + 0.4 * averageProviderConfidence`
with absent provider confidences defaulting to `0.5` and the result clamped
to `[0, 1]`.  The source executor and synthesizer implement no such
computation; this definition exists only to state what the spec expects. -/
def spec_confidence (succeeded total : Nat) (provided : List Rat) : Rat :=
  let avg : Rat := if provided = [] then 1/2 else provided.sum / provided.length
  let v : Rat := (3/5) * ((succeeded : Rat) / (total : Rat)) + (2/5) * avg
  min 1 (max 0 v)

/-- C4 (counterexample): the spec's formula would give `0.8` to an
all-success run with no provider-reported confidences, but the run-result
dict assembled by `execute_enhanced_workflow` has no `confidence` key at all —
no numeric confidence is ever computed. -/
theorem confidence_never_computed :
    ¬ ("confidence" ∈ resultFields) ∧ spec_confidence 5 5 [] = 4/5 := by
  constructor
  · decide
  · norm_num [spec_confidence]

/-- C4 (amended): the executor computes no per-run confidence: the run-result
dict's key set is fixed and contains no `confidence`, and its `synthesis`
entry is the narrative string, not a numeric score. -/
theorem no_confidence_in_run_result :
    "confidence" ∉ resultFields
    ∧ ∀ wf q ctx agents, (execute_enhanced_workflow wf q ctx agents).synthesis
        = generate_final_synthesis (execute_enhanced_workflow wf q ctx agents).stages wf :=
  ⟨by decide, fun _ _ _ _ => rfl⟩

/-- `priority_order.get` only ever produces the ranks 3, 2 and 1. -/
theorem priority_order_get_cases (p : String) :
    priority_order_get p = 3 ∨ priority_order_get p = 2 ∨ priority_order_get p = 1 := by
  unfold priority_order_get
  split_ifs <;> simp

/-- Every member of a rank bucket has that rank. -/
theorem rank_of_mem_bucket {l : List OutRec} {k : Nat} {r : OutRec}
    (h : r ∈ l.filter (fun x => priority_order_get x.priority == k)) :
    priority_order_get r.priority = k := by
  have := List.of_mem_filter h
  simpa using this

/-- A single rank bucket is trivially sorted (all ranks equal). -/
theorem bucket_pairwise (l : List OutRec) (k : Nat) :
    (l.filter (fun r => priority_order_get r.priority == k)).Pairwise
      (fun a b => priority_order_get b.priority ≤ priority_order_get a.priority) :=
  List.pairwise_of_forall_mem_list (fun a ha b hb => by
    rw [rank_of_mem_bucket ha, rank_of_mem_bucket hb])

/-- The sorted recommendation list is ordered by non-increasing priority
rank. -/
theorem pySort_pairwise (l : List OutRec) :
    (pySortByPriorityDesc l).Pairwise
      (fun a b => priority_order_get b.priority ≤ priority_order_get a.priority) := by
  unfold pySortByPriorityDesc
  rw [List.pairwise_append]
  refine ⟨?_, bucket_pairwise l 1, ?_⟩
  · rw [List.pairwise_append]
    refine ⟨bucket_pairwise l 3, bucket_pairwise l 2, ?_⟩
    intro a ha b hb
    rw [rank_of_mem_bucket ha, rank_of_mem_bucket hb]
    omega
  · intro a ha b hb
    rcases List.mem_append.mp ha with ha | ha <;>
      rw [rank_of_mem_bucket ha, rank_of_mem_bucket hb] <;> omega

/-- Filtering a rank bucket by a second rank keeps the bucket when the ranks
agree and empties it otherwise. -/
theorem filter_and_bucket (l : List OutRec) (k j : Nat) :
    l.filter (fun a => (priority_order_get a.priority == k) && (priority_order_get a.priority == j))
      = if k = j then l.filter (fun a => priority_order_get a.priority == k) else [] := by
  by_cases h : k = j
  · subst h
    rw [if_pos rfl]
    apply List.filter_congr
    intro a _
    exact Bool.and_self _
  · rw [if_neg h]
    apply List.filter_eq_nil_iff.mpr
    intro a _
    simp only [Bool.and_eq_true, beq_iff_eq, not_and]
    intro h1 h2
    exact absurd (h1.symm.trans h2) h

/-- Stability of the sort: for every rank, the sorted list restricted to that
rank is exactly the input restricted to that rank, in the original order. -/
theorem pySort_filter_eq (l : List OutRec) (k : Nat) :
    (pySortByPriorityDesc l).filter (fun r => priority_order_get r.priority == k)
      = l.filter (fun r => priority_order_get r.priority == k) := by
  unfold pySortByPriorityDesc
  rw [List.filter_append, List.filter_append, List.filter_filter, List.filter_filter,
    List.filter_filter]
  rw [filter_and_bucket l k 3, filter_and_bucket l k 2, filter_and_bucket l k 1]
  by_cases h3 : k = 3
  · subst h3; simp
  · by_cases h2 : k = 2
    · subst h2; simp
    · by_cases h1 : k = 1
      · subst h1; simp
      · rw [if_neg h3, if_neg h2, if_neg h1]
        simp only [List.append_nil, List.nil_append]
        symm
        apply List.filter_eq_nil_iff.mpr
        intro a _
        simp only [beq_iff_eq]
        rcases priority_order_get_cases a.priority with h | h | h <;> rw [h] <;> omega

/-- The sort is a permutation: it drops and adds nothing. -/
theorem pySort_perm (l : List OutRec) : (pySortByPriorityDesc l).Perm l := by
  induction l with
  | nil => exact List.Perm.refl _
  | cons r rest ih =>
      unfold pySortByPriorityDesc at ih ⊢
      have ihR : (List.filter (fun r => priority_order_get r.priority == 3) rest
          ++ (List.filter (fun r => priority_order_get r.priority == 2) rest
            ++ List.filter (fun r => priority_order_get r.priority == 1) rest)).Perm rest := by
        rw [← List.append_assoc]
        exact ih
      rcases priority_order_get_cases r.priority with h | h | h
      · simp only [List.filter_cons, h, List.cons_append]
        norm_num
        exact ihR
      · simp only [List.filter_cons, h]
        norm_num
        exact List.perm_middle.trans (ihR.cons r)
      · simp only [List.filter_cons, h]
        norm_num
        exact ((List.Perm.append_left _ List.perm_middle).trans List.perm_middle).trans (ihR.cons r)

/-- Two succeeded stages sourcing, in order, the recommendations
`[{low, x}, {high, y}]` and `[{medium, z}, {high, w}]` — the claim's example
input `[{Low, x}, {High, y}, {Medium, z}, {High, w}]`. -/
def c5Stages : List (String × StageResult) :=
  [ ("data_analysis",
      { success := some true, summary := some "A"
      , raw_result := some
          { recommendations := some
              [ { priority := some "low", description := some "x" }
              , { priority := some "high", description := some "y" } ]
          , insights := none }
      , error := none })
  , ("research",
      { success := some true, summary := some "B"
      , raw_result := some
          { recommendations := some
              [ { priority := some "medium", description := some "z" }
              , { priority := some "high", description := some "w" } ]
          , insights := none }
      , error := none }) ]

/-- C5: the prioritized recommendation list is sorted by priority rank
descending; the sort is stable — for every rank, the output restricted to
that rank equals the extracted input restricted to that rank, in original
stage order — and on the claim's example the output order is
`[y, w, z, x]`. -/
theorem recommendations_sorted_stable :
    (∀ stages, (generate_prioritized_recommendations stages).Pairwise
        (fun a b => priority_order_get b.priority ≤ priority_order_get a.priority))
    ∧ (∀ stages k,
        (generate_prioritized_recommendations stages).filter
            (fun r => priority_order_get r.priority == k)
          = (extract_stage_recommendations stages).filter
              (fun r => priority_order_get r.priority == k))
    ∧ (generate_prioritized_recommendations c5Stages).map (fun r => r.description)
        = ["y", "w", "z", "x"] :=
  ⟨fun stages => pySort_pairwise (extract_stage_recommendations stages),
   fun stages k => pySort_filter_eq (extract_stage_recommendations stages) k,
   rfl⟩

/-- A succeeded stage sourcing two recommendations with the identical
description `dup`. -/
def c6Stages : List (String × StageResult) :=
  [ ("data_analysis",
      { success := some true, summary := some "A"
      , raw_result := some
          { recommendations := some
              [ { priority := some "high", description := some "dup" }
              , { priority := some "high", description := some "dup" } ]
          , insights := none }
      , error := none }) ]

/-- C6 (counterexample): a run sourcing two recommendations with the same
description text keeps both of them in the prioritized list — the output is
`[dup, dup]`, which has duplicate descriptions. -/
theorem duplicate_recommendations_kept :
    (generate_prioritized_recommendations c6Stages).map (fun r => r.description) = ["dup", "dup"]
    ∧ ¬ ((generate_prioritized_recommendations c6Stages).map (fun r => r.description)).Nodup :=
  ⟨rfl, by decide⟩

/-- C6 (amended): no deduplication is performed — the prioritized list is a
permutation of the extracted recommendations, and every description occurs in
it exactly as often as it was extracted, duplicates included. -/
theorem recommendations_keep_every_duplicate :
    ∀ stages, (generate_prioritized_recommendations stages).Perm (extract_stage_recommendations stages)
      ∧ ∀ d, ((generate_prioritized_recommendations stages).map (fun r => r.description)).count d
          = ((extract_stage_recommendations stages).map (fun r => r.description)).count d :=
  fun stages =>
    ⟨pySort_perm (extract_stage_recommendations stages),
     fun d => ((pySort_perm (extract_stage_recommendations stages)).map (fun r => r.description)).count_eq d⟩

/-- A succeeded stage sourcing, in order, priorities
`High` (capitalized, not a key of `priority_order`), `high`, `low`,
`medium`. -/
def c10Stages : List (String × StageResult) :=
  [ ("data_analysis",
      { success := some true, summary := some "A"
      , raw_result := some
          { recommendations := some
              [ { priority := some "High", description := some "b" }
              , { priority := some "high", description := some "a" }
              , { priority := some "low", description := some "c" }
              , { priority := some "medium", description := some "d" } ]
          , insights := none }
      , error := none }) ]

/-- C10: any priority string that is not exactly `high`, `medium` or `low`
gets the default rank of `medium`; concretely, `[High b, high a, low c,
medium d]` sorts to `[a, b, d, c]` — the capitalized `High` ranks below
`high` and ties stably with `medium`.  (The sort is a total Lean function:
it cannot raise for any priority value.) -/
theorem unknown_priority_ranks_medium :
    (∀ p, p ≠ "high" → p ≠ "medium" → p ≠ "low" → priority_order_get p = priority_order_get "medium")
    ∧ (generate_prioritized_recommendations c10Stages).map (fun r => r.description)
        = ["a", "b", "d", "c"] := by
  constructor
  · intro p h1 h2 h3
    unfold priority_order_get
    rw [if_neg h1, if_neg h2, if_neg h3]
    rfl
  · rfl

/-- Witness for C10 at the concrete priority string `High`. -/
theorem unknown_priority_ranks_medium_instance :
    priority_order_get "High" = priority_order_get "medium" :=
  unknown_priority_ranks_medium.1 "High" (by decide) (by decide) (by decide)

/-- No keyword of any capability's table occurs in the lowercased query. -/
def no_capability_keyword_matches (q : String) : Prop :=
  ∀ p ∈ agent_capability_keywords, p.2.any (fun k => containsStr k (pyLower q)) = false

/-- C7: the classifier's `required_capabilities` list is never empty, and
whenever no capability keyword occurs in the query it is exactly `['chat']`,
for every query and context. -/
theorem required_capabilities_nonempty :
    ∀ q ctx, (analyze_query q ctx).required_capabilities ≠ []
      ∧ (no_capability_keyword_matches q →
          (analyze_query q ctx).required_capabilities = ["chat"]) := by
  intro q ctx
  constructor
  · show requiredCapabilitiesOf (pyLower q) ≠ []
    unfold requiredCapabilitiesOf
    by_cases h : agent_capability_keywords.foldl (fun acc p =>
        if p.2.any (fun k => containsStr k (pyLower q)) then acc ++ [p.1] else acc) [] = []
    · rw [if_pos h]
      simp
    · rw [if_neg h]
      exact h
  · intro hnm
    show requiredCapabilitiesOf (pyLower q) = ["chat"]
    have h1 := hnm ("data_analysis",
      ["análisis", "datos", "tendencia", "patrón", "estadística", "métrica", "gráfico", "visualización"])
      (by simp [agent_capability_keywords])
    have h2 := hnm ("business_advisor",
      ["negocio", "recomendación", "estrategia", "turismo", "retail", "restaurante", "transporte", "servicio"])
      (by simp [agent_capability_keywords])
    have h3 := hnm ("research",
      ["investigar", "buscar", "información", "contexto", "fuente", "estudio", "investigación"])
      (by simp [agent_capability_keywords])
    have h4 := hnm ("chat", ["pregunta", "ayuda", "información", "general", "básico"])
      (by simp [agent_capability_keywords])
    unfold requiredCapabilitiesOf
    simp only [agent_capability_keywords, List.foldl_cons, List.foldl_nil] at *
    rw [h1, h2, h3, h4]
    simp

/-- Witness for C7 at the concrete keyword-free query `xyz`. -/
theorem required_capabilities_nonempty_instance :
    (analyze_query "xyz" none).required_capabilities = ["chat"]
    ∧ (analyze_query "xyz" none).required_capabilities ≠ [] :=
  ⟨(required_capabilities_nonempty "xyz" none).2
      (by unfold no_capability_keyword_matches; decide),
   (required_capabilities_nonempty "xyz" none).1⟩

/-- C8: the classifier is a pure function of its inputs — identical inputs
give identical classifications, and the result depends on the context only
through the `data_loaded` flag (`_analyze_query` reads no other state, does
no I/O and uses no randomness, which the embedding witnesses by being a total
function). -/
theorem analyze_query_deterministic :
    (∀ q ctx, analyze_query q ctx = analyze_query q ctx)
    ∧ ∀ q c1 c2, hasDataContext c1 = hasDataContext c2 →
        analyze_query q c1 = analyze_query q c2 := by
  refine ⟨fun _ _ => rfl, fun q c1 c2 h => ?_⟩
  unfold analyze_query
  rw [h]

/-- Witness for C8: two contexts with the same `data_loaded` flag but
different extra entries classify `hola` identically. -/
theorem analyze_query_deterministic_instance :
    analyze_query "hola" (some ⟨true, [("session", "abc")]⟩)
      = analyze_query "hola" (some ⟨true, []⟩) :=
  analyze_query_deterministic.2 "hola" (some ⟨true, [("session", "abc")]⟩) (some ⟨true, []⟩) rfl
